/-
  Verification of the API-Assertify backend (src/server.js) against its
  natural-language specification.

  Shallow embedding notes:
  * JavaScript strings are Lean `String`s; a missing/empty required field is
    modelled as `""` (the only falsy string).
  * A URL is modelled structurally as a base plus an ordered list of query
    pairs; `new URL(u)` / `searchParams.append` / `toString()` become
    operations on that structure (URL-string parsing itself is plumbing and
    assumed to succeed; the claims under study all concern dispatchable URLs).
  * JSON values are the inductive `Json`.
  * The Firestore database is a `Store` record of three typed collections;
    `add` results (generated id or thrown error) and the outbound axios call
    are supplied as explicit oracle arguments, so each Express handler is a
    pure function from request + environment to reply + effects.
-/
import Mathlib

/-- A JSON value, as carried in request/response bodies. -/
inductive Json where
  | null
  | bool (b : Bool)
  | num (n : Int)
  | str (s : String)
  | arr (xs : List Json)
  | obj (fields : List (String × Json))

/-- The keys of a JSON object (empty for non-objects). -/
def Json.keys : Json → List String
  | .obj fs => fs.map (·.1)
  | _ => []

/-- Field lookup in a JSON object (none for non-objects / absent keys). -/
def Json.lookup : Json → String → Option Json
  | .obj fs, k => List.lookup k fs
  | _, _ => none

/-- JavaScript truthiness of a JSON value (`x || fallback` takes the fallback
    exactly when `x` is falsy). -/
def Json.falsy : Json → Bool
  | .null => true
  | .bool false => true
  | .num 0 => true
  | .str "" => true
  | _ => false

/-- A resolved authenticated caller: `req.user` when not `null`
    (`decoded.uid` plus optional email). -/
structure Identity where
  uid : String
  email : Option String
deriving DecidableEq, Repr

/-- Structural model of a URL: the non-query part plus the ordered list of
    query parameters (`URLSearchParams` preserves insertion order and keeps
    repeated keys). -/
structure Url where
  base : String
  query : List (String × String)
deriving DecidableEq, Repr

/-- The URL corresponding to the empty/missing JS url string (`!url`). -/
def blankUrl : Url := ⟨"", []⟩

/-- Outcome of the external verification oracle
    (`firebaseAuth.verifyIdToken`): a decoded identity, or a thrown error. -/
inductive VerifyResult where
  | ok (id : Identity)
  | error (msg : String)

/-- Outcome of one Firestore `.add(...)` call: a document reference with a
    generated id, or a thrown error. -/
inductive StoreWriteResult where
  | ok (id : String)
  | fail (msg : String)
deriving DecidableEq, Repr

/-- Outcome of the outbound axios call: an HTTP response of any status
    (`validateStatus: () => true` never rejects a status), or a
    transport-level failure (thrown error). -/
inductive HttpResult where
  | response (status : Nat) (statusText : String)
      (headers : List (String × String)) (data : Json)
  | transportError (msg : String)

/-- `String.prototype.toUpperCase()` (ASCII, as relevant to HTTP method
    names), over the character list so that it evaluates by reduction. -/
def jsToUpper (s : String) : String := ⟨s.data.map Char.toUpper⟩

/-- `String.prototype.startsWith(p)`. -/
def jsStartsWith (s p : String) : Bool := p.data.isPrefixOf s.data

/-- Splitting accumulator for `jsSplitSpace`. -/
def splitSpaceAux : List Char → List Char → List (List Char)
  | [], acc => [acc.reverse]
  | c :: cs, acc =>
    if c = ' ' then acc.reverse :: splitSpaceAux cs []
    else splitSpaceAux cs (c :: acc)

/-- `String.prototype.split(" ")`: split on every single space, keeping
    empty segments (JS semantics: `"" .split(" ") = [""]`). -/
def jsSplitSpace (s : String) : List String :=
  (splitSpaceAux s.data []).map fun cs => ⟨cs⟩

/--
`verifyFirebaseToken` token extraction: `authHeader.split(" ")[1]`
(split on single spaces, take index 1; absent index modelled as `""`).
-/
def extractToken (h : String) : String := (jsSplitSpace h).getD 1 ""

/--
The `verifyFirebaseToken` middleware (src/server.js lines 16-36), as the
function from the authorization header and the verification oracle to
`req.user`. A missing header or one without the `"Bearer "` prefix yields a
guest; a failing verification is caught and also yields a guest.
-/
def resolveIdentity (header : Option String) (oracle : String → VerifyResult) :
    Option Identity :=
  match header with
  | none => none
  | some h =>
    if ¬ jsStartsWith h "Bearer " then none
    else
      match oracle (extractToken h) with
      | .ok id => some id
      | .error _ => none

/-- Caller-supplied body of `POST /proxy` after destructuring defaults. -/
structure ProxyRequest where
  url : Url
  method : String
  headers : List (String × String)
  params : List (String × String)
  body : Json

/--
`finalUrl` construction (src/server.js lines 62-68): for a GET (case
insensitively) with non-empty `params`, every entry is appended to the URL's
search parameters in iteration order; otherwise the URL is left unchanged.
-/
def buildFinalUrl (url : Url) (method : String)
    (params : List (String × String)) : Url :=
  if jsToUpper method = "GET" ∧ params.length > 0 then
    { base := url.base, query := url.query ++ params }
  else url

example : buildFinalUrl ⟨"https://a.test/p", [("x", "1")]⟩ "get"
    [("a", "1"), ("a", "2")] = ⟨"https://a.test/p", [("x", "1"), ("a", "1"), ("a", "2")]⟩ := by
  decide

example : buildFinalUrl ⟨"https://a.test/p", []⟩ "POST" [("a", "1")]
    = ⟨"https://a.test/p", []⟩ := by decide

/-- A document of the Firestore `history` collection, with its generated id. -/
structure HistoryRecord where
  id : String
  userId : String
  url : Url
  method : String
  headers : List (String × String)
  params : List (String × String)
  body : Json
  responseStatus : Nat
  responseData : Json
  createdAt : Nat

/-- A document of the Firestore `collections` collection. -/
structure Collection where
  id : String
  userId : String
  name : String
  createdAt : Nat
deriving DecidableEq, Repr

/-- A document of the Firestore `collection_items` collection. `requestId` is
    optional because stored documents may lack the field (`d.data()?.requestId`
    can be `undefined`), even though this backend's own insert always sets it. -/
structure CollectionItem where
  id : String
  userId : String
  collectionId : String
  requestId : Option String
  createdAt : Nat
deriving DecidableEq, Repr

/-- The Firestore database contents visible to the handlers. -/
structure Store where
  history : List HistoryRecord
  collections : List Collection
  items : List CollectionItem

/-- The JSON body shapes `POST /proxy` can answer with. -/
inductive ProxyBody where
  | validationError (msg : String)
  | success (status : Nat) (statusText : String)
      (headers : List (String × String)) (data : Json) (requestId : Option String)
  | failure (error : String)

/-- The `requestId` field carried by a `/proxy` response body (the 400 body
    has none; the catch body sets it to `null`). -/
def ProxyBody.requestId : ProxyBody → Option String
  | .success _ _ _ _ rid => rid
  | _ => none

/-- The upstream status surfaced by a `/proxy` response body, when any. -/
def ProxyBody.upstreamStatus : ProxyBody → Option Nat
  | .success st _ _ _ _ => some st
  | _ => none

/-- A `/proxy` reply: the endpoint's own HTTP status plus its JSON body. -/
structure ProxyReply where
  status : Nat
  body : ProxyBody

/-- Observable side effects of one `POST /proxy` call: the URL actually
    dispatched outbound (if any call was attempted) and the history document
    inserted (if any). -/
structure ProxyEffects where
  outboundUrl : Option Url
  inserted : Option HistoryRecord

/--
The `POST /proxy` handler (src/server.js lines 54-118). `http` is the axios
oracle (applied to the dispatched URL), `store` the outcome Firestore's
`history.add` would have, `now` the wall clock. The `try` block covers the
outbound call and the persistence write, so a thrown store error reaches the
same `catch` as a transport failure.
-/
def proxyPost (user : Option Identity) (req : ProxyRequest)
    (http : Url → HttpResult) (store : StoreWriteResult) (now : Nat) :
    ProxyReply × ProxyEffects :=
  if req.url = blankUrl ∨ req.method = "" then
    (⟨400, .validationError "Missing url or method"⟩, ⟨none, none⟩)
  else
    let finalUrl := buildFinalUrl req.url req.method req.params
    match http finalUrl with
    | .transportError msg => (⟨500, .failure msg⟩, ⟨some finalUrl, none⟩)
    | .response st stx hs d =>
      match user with
      | none => (⟨200, .success st stx hs d none⟩, ⟨some finalUrl, none⟩)
      | some u =>
        match store with
        | .ok rid =>
          (⟨200, .success st stx hs d (some rid)⟩,
           ⟨some finalUrl,
            some ⟨rid, u.uid, req.url, req.method, req.headers, req.params,
                  req.body, st, d, now⟩⟩)
        | .fail msg => (⟨500, .failure msg⟩, ⟨some finalUrl, none⟩)

/-- Descending order on a numeric document field: the relation Firestore's
    `orderBy(field, "desc")` sorts by. -/
def descBy (f : α → Nat) (a b : α) : Prop := f b ≤ f a

instance (f : α → Nat) : DecidableRel (descBy f) := fun _ _ => Nat.decLe _ _

instance (f : α → Nat) : IsTotal α (descBy f) := ⟨fun a b => Nat.le_total (f b) (f a)⟩

instance (f : α → Nat) : IsTrans α (descBy f) :=
  ⟨fun _ _ _ h1 h2 => Nat.le_trans h2 h1⟩

/--
The Firestore query of `GET /history` (src/server.js lines 130-135):
equality-filter on `userId`, order by `createdAt` descending, limit 50.
-/
def historyQuery (store : Store) (uid : String) : List HistoryRecord :=
  (((store.history.filter fun r => r.userId == uid).insertionSort
      (descBy HistoryRecord.createdAt)).take 50)

/-- The response shape `GET /history` maps each document to (the defaults for
    absent fields are identities on well-typed documents, except that a JS
    falsy `body` collapses to `null` under `data.body || null`). -/
structure HistoryView where
  id : String
  url : Url
  method : String
  headers : List (String × String)
  params : List (String × String)
  body : Json
  responseStatus : Nat
  responseData : Json
  createdAt : Nat

/-- The per-document mapping of `GET /history` (src/server.js lines 137-150). -/
def mapHistory (r : HistoryRecord) : HistoryView :=
  { id := r.id, url := r.url, method := r.method, headers := r.headers,
    params := r.params, body := if r.body.falsy then Json.null else r.body,
    responseStatus := r.responseStatus, responseData := r.responseData,
    createdAt := r.createdAt }

/--
The `GET /history` handler (src/server.js lines 126-158): guests get an empty
array; authenticated callers get their own last-50 records, newest first.
-/
def historyGet (user : Option Identity) (store : Store) : List HistoryView :=
  match user with
  | none => []
  | some u => (historyQuery store u.uid).map mapHistory

/--
The `POST /collections` handler (src/server.js lines 164-185): reply
`(status, JSON body)` plus the Collection document inserted, if any.
-/
def collectionsPost (user : Option Identity) (name : String)
    (add : StoreWriteResult) (now : Nat) : (Nat × Json) × Option Collection :=
  match user with
  | none => ((401, .obj [("error", .str "Authentication required")]), none)
  | some u =>
    if name = "" then ((400, .obj [("error", .str "Name is required")]), none)
    else
      match add with
      | .ok id =>
        ((200, .obj [("id", .str id), ("name", .str name)]),
         some ⟨id, u.uid, name, now⟩)
      | .fail msg => ((500, .obj [("error", .str msg)]), none)

/-- The distinct reply outcomes of `POST /collection-items`. -/
inductive ItemReply where
  | authRequired
  | missingFields
  | notOwner
  | ok (id : String)
  | storeError (msg : String)
deriving DecidableEq, Repr

/-- The HTTP status each `POST /collection-items` outcome is sent with. -/
def ItemReply.statusCode : ItemReply → Nat
  | .authRequired => 401
  | .missingFields => 400
  | .notOwner => 403
  | .ok _ => 200
  | .storeError _ => 500

/--
The `POST /collection-items` handler (src/server.js lines 192-223): reply plus
the CollectionItem document inserted, if any. Ownership is validated against
the referenced Collection only; the `history` collection is never read.
-/
def collectionItemsPost (user : Option Identity) (collectionId requestId : String)
    (store : Store) (add : StoreWriteResult) (now : Nat) :
    ItemReply × Option CollectionItem :=
  match user with
  | none => (.authRequired, none)
  | some u =>
    if collectionId = "" ∨ requestId = "" then (.missingFields, none)
    else
      match store.collections.find? (fun c => c.id == collectionId) with
      | none => (.notOwner, none)
      | some c =>
        if c.userId ≠ u.uid then (.notOwner, none)
        else
          match add with
          | .ok id => (.ok id, some ⟨id, u.uid, collectionId, some requestId, now⟩)
          | .fail msg => (.storeError msg, none)

/-- JS truthiness filter applied to a stored `requestId`
    (`.filter(Boolean)` drops `undefined`, `null` and `""`). -/
def jsTruthy : Option String → Option String
  | some s => if s = "" then none else some s
  | none => none

/-- The item ids attached to one collection by `GET /collections`
    (src/server.js lines 244-252): filter by collection and owner, project
    `requestId`, drop falsy values. -/
def collectionItemIds (items : List CollectionItem) (uid cid : String) :
    List String :=
  (items.filter fun it => it.collectionId == cid && it.userId == uid).filterMap
    fun it => jsTruthy it.requestId

/-- The response shape of one collection in `GET /collections`. -/
structure CollectionView where
  id : String
  name : String
  items : List String
  createdAt : Nat
deriving DecidableEq, Repr

/--
The `GET /collections` handler (src/server.js lines 230-269): guests get an
empty array; authenticated callers get their own collections, newest first,
each with the truthy `requestId`s of its owned items.
-/
def collectionsGet (user : Option Identity) (store : Store) :
    List CollectionView :=
  match user with
  | none => []
  | some u =>
    ((store.collections.filter fun c => c.userId == u.uid).insertionSort
        (descBy Collection.createdAt)).map fun c =>
      { id := c.id,
        name := if c.name = "" then "Untitled Collection" else c.name,
        items := collectionItemIds store.items u.uid c.id,
        createdAt := c.createdAt }

/-! ### Helper lemmas and concrete fixtures -/

theorem jsTruthy_eq_some {o : Option String} {s : String}
    (h : jsTruthy o = some s) : o = some s ∧ s ≠ "" := by
  cases o with
  | none => simp [jsTruthy] at h
  | some t =>
    by_cases ht : t = "" <;> simp [jsTruthy, ht] at h
    subst h
    exact ⟨rfl, ht⟩

theorem collectionItemIds_append_falsy (items : List CollectionItem)
    (uid cid : String) (it : CollectionItem)
    (hit : jsTruthy it.requestId = none) :
    collectionItemIds (items ++ [it]) uid cid = collectionItemIds items uid cid := by
  unfold collectionItemIds
  rw [List.filter_append, List.filterMap_append]
  by_cases hkeep : (it.collectionId == cid && it.userId == uid) = true
  · simp [hkeep, hit]
  · simp [List.filter, hkeep]

/-- Fixture history store: records of two users with shuffled timestamps. -/
def exHistory : List HistoryRecord :=
  [⟨"h1", "alice", ⟨"https://a.test/1", []⟩, "GET", [], [], .null, 200, .null, 3⟩,
   ⟨"h2", "bob", ⟨"https://a.test/2", []⟩, "GET", [], [], .null, 404, .null, 5⟩,
   ⟨"h3", "alice", ⟨"https://a.test/3", []⟩, "POST", [], [], .str "x", 500, .str "e", 9⟩,
   ⟨"h4", "alice", ⟨"https://a.test/4", []⟩, "GET", [], [], .null, 201, .null, 1⟩]

/-- Fixture store for history/collection claims. -/
def exStore : Store :=
  { history := exHistory,
    collections := [⟨"col1", "alice", "Smoke", 5⟩, ⟨"col2", "mallory", "Theirs", 6⟩],
    items := [⟨"i1", "alice", "col1", some "r1", 1⟩,
              ⟨"i2", "alice", "col1", none, 2⟩,
              ⟨"i3", "alice", "col1", some "", 3⟩] }

/-! ### Claim theorems -/

/--
C6: For every credential header that is absent, lacks the bearer-style
prefix, or fails verification, identity resolution yields the anonymous
identity (`none`) and never propagates an error (the resolver is a total
function into `Option Identity`); the request proceeds as a guest.
-/
theorem C6_invalid_credentials_resolve_anonymous :
    (∀ oracle, resolveIdentity none oracle = none) ∧
    (∀ h oracle, jsStartsWith h "Bearer " = false →
      resolveIdentity (some h) oracle = none) ∧
    (∀ h oracle msg, oracle (extractToken h) = .error msg →
      resolveIdentity (some h) oracle = none) := by
  refine ⟨fun _ => rfl, fun h oracle hb => by simp [resolveIdentity, hb], ?_⟩
  intro h oracle msg he
  unfold resolveIdentity
  by_cases hb : jsStartsWith h "Bearer "
  · simp [hb, he]
  · simp [hb]

/-- Witness for C6 at concrete headers and oracles: a header without the
    bearer prefix and a header whose token the oracle rejects both resolve
    to a guest. -/
theorem C6_witness :
    resolveIdentity (some "Token abc") (fun _ => .ok ⟨"u1", none⟩) = none ∧
    resolveIdentity (some "Bearer expired") (fun _ => .error "expired") = none :=
  ⟨C6_invalid_credentials_resolve_anonymous.2.1 "Token abc" _ (by decide),
   C6_invalid_credentials_resolve_anonymous.2.2 "Bearer expired" _ "expired" rfl⟩

/--
C7: For every `POST /proxy` call whose `url` or `method` is empty or missing,
the endpoint replies 400 with the validation error, and neither an outbound
HTTP call nor a persistence write is performed.
-/
theorem C7_invalid_proxy_input_rejected_without_effects
    (user : Option Identity) (req : ProxyRequest) (http : Url → HttpResult)
    (store : StoreWriteResult) (now : Nat)
    (h : req.url = blankUrl ∨ req.method = "") :
    proxyPost user req http store now =
      (⟨400, .validationError "Missing url or method"⟩, ⟨none, none⟩) := by
  simp [proxyPost, h]

/-- Witness for C7 at a concrete call with a blank url. -/
theorem C7_witness :
    proxyPost none ⟨blankUrl, "GET", [], [], .null⟩
        (fun _ => .transportError "t") (.ok "h1") 0 =
      (⟨400, .validationError "Missing url or method"⟩, ⟨none, none⟩) :=
  C7_invalid_proxy_input_rejected_without_effects none _ _ _ 0 (Or.inl rfl)

/--
C8: For every `POST /proxy` call whose method is GET case-insensitively and
whose params map is non-empty, the dispatched URL carries every key/value
pair of `params` appended after the existing query in iteration order
(repeated keys kept, not overwritten); for any other method or an empty
params map the URL is dispatched unchanged; and on every validated call the
outbound dispatch uses exactly this final URL.
-/
theorem C8_get_params_appended_in_order
    (url : Url) (method : String) (params : List (String × String))
    (user : Option Identity) (req : ProxyRequest) (http : Url → HttpResult)
    (store : StoreWriteResult) (now : Nat) :
    (jsToUpper method = "GET" → params ≠ [] →
      buildFinalUrl url method params = ⟨url.base, url.query ++ params⟩) ∧
    (jsToUpper method ≠ "GET" ∨ params = [] →
      buildFinalUrl url method params = url) ∧
    (¬ (req.url = blankUrl ∨ req.method = "") →
      (proxyPost user req http store now).2.outboundUrl =
        some (buildFinalUrl req.url req.method req.params)) := by
  refine ⟨?_, ?_, ?_⟩
  · intro hm hp
    unfold buildFinalUrl
    rw [if_pos ⟨hm, List.length_pos.mpr hp⟩]
  · intro h
    unfold buildFinalUrl
    rw [if_neg]
    rintro ⟨h1, h2⟩
    rcases h with h | h
    · exact h h1
    · rw [h] at h2; exact Nat.lt_irrefl 0 h2
  · intro hv
    simp only [proxyPost, if_neg hv]
    cases http (buildFinalUrl req.url req.method req.params) with
    | transportError msg => rfl
    | response st stx hs d =>
      cases user with
      | none => rfl
      | some u => cases store <;> rfl

/-- Witness for C8 at concrete inputs: a lowercase-get call with a duplicate
    key and an existing query, a POST left unchanged, and a validated call
    dispatching the built URL. -/
theorem C8_witness :
    buildFinalUrl ⟨"https://x.test/p", [("q", "0")]⟩ "get" [("a", "1"), ("a", "2")]
        = ⟨"https://x.test/p", [("q", "0"), ("a", "1"), ("a", "2")]⟩ ∧
    buildFinalUrl ⟨"https://x.test/p", [("q", "0")]⟩ "POST" [("a", "1")]
        = ⟨"https://x.test/p", [("q", "0")]⟩ ∧
    (proxyPost none ⟨⟨"https://x.test/p", []⟩, "get", [], [("a", "1")], .null⟩
        (fun _ => .response 200 "OK" [] .null) (.ok "h1") 0).2.outboundUrl =
      some (buildFinalUrl ⟨"https://x.test/p", []⟩ "get" [("a", "1")]) :=
  ⟨(C8_get_params_appended_in_order ⟨"https://x.test/p", [("q", "0")]⟩ "get"
      [("a", "1"), ("a", "2")] none ⟨blankUrl, "", [], [], .null⟩
      (fun _ => .transportError "t") (.ok "i") 0).1 (by decide) (by decide),
   (C8_get_params_appended_in_order ⟨"https://x.test/p", [("q", "0")]⟩ "POST"
      [("a", "1")] none ⟨blankUrl, "", [], [], .null⟩
      (fun _ => .transportError "t") (.ok "i") 0).2.1 (Or.inl (by decide)),
   (C8_get_params_appended_in_order blankUrl "" []
      none ⟨⟨"https://x.test/p", []⟩, "get", [], [("a", "1")], .null⟩
      (fun _ => .response 200 "OK" [] .null) (.ok "h1") 0).2.2 (by decide)⟩

/--
C3: For every anonymous call to `POST /proxy` that passes validation, no
history document is inserted and the `requestId` field of the response body
is `null`.
-/
theorem C3_anonymous_proxy_never_persists
    (req : ProxyRequest) (http : Url → HttpResult) (store : StoreWriteResult)
    (now : Nat) (h : ¬ (req.url = blankUrl ∨ req.method = "")) :
    (proxyPost none req http store now).2.inserted = none ∧
    (proxyPost none req http store now).1.body.requestId = none := by
  simp only [proxyPost, if_neg h]
  cases http (buildFinalUrl req.url req.method req.params) with
  | transportError msg => exact ⟨rfl, rfl⟩
  | response st stx hs d => exact ⟨rfl, rfl⟩

/-- Witness for C3 at a concrete anonymous call that obtains a 200. -/
theorem C3_witness :
    (proxyPost none ⟨⟨"https://x.test/ok", []⟩, "GET", [], [], .null⟩
        (fun _ => .response 200 "OK" [] .null) (.ok "h9") 4).2.inserted = none ∧
    (proxyPost none ⟨⟨"https://x.test/ok", []⟩, "GET", [], [], .null⟩
        (fun _ => .response 200 "OK" [] .null) (.ok "h9") 4).1.body.requestId = none :=
  C3_anonymous_proxy_never_persists _ _ _ 4 (by decide)

/--
C1 counterexample: a validated, authenticated `POST /proxy` call whose
outbound call obtains an HTTP 200 response is nevertheless answered with the
endpoint's own 500 carrying no upstream status at all, because the history
write fails inside the same `try` block — refuting "for every POST /proxy
call that passes validation and whose outbound call obtains an HTTP
response, the relay endpoint returns that exact status ... back to the
caller" as universally stated.
-/
theorem C1_counterexample :
    (proxyPost (some ⟨"u1", none⟩) ⟨⟨"https://api.test/ok", []⟩, "GET", [], [], .null⟩
        (fun _ => .response 200 "OK" [] .null) (.fail "firestore down") 7).1.status = 500 ∧
    (proxyPost (some ⟨"u1", none⟩) ⟨⟨"https://api.test/ok", []⟩, "GET", [], [], .null⟩
        (fun _ => .response 200 "OK" [] .null) (.fail "firestore down") 7).1.body.upstreamStatus
      = none :=
  ⟨rfl, rfl⟩

/--
C1 (amended): for every validated `POST /proxy` call whose outbound call
obtains an HTTP response and whose history-persistence step does not throw
(anonymous caller, or a successful store write), the endpoint answers 200
with a success body carrying exactly the upstream status, status text,
headers and body — an upstream non-2xx status is never turned into a
failure.
-/
theorem C1_upstream_status_passed_through
    (user : Option Identity) (req : ProxyRequest) (http : Url → HttpResult)
    (store : StoreWriteResult) (now : Nat) (st : Nat) (stx : String)
    (hs : List (String × String)) (d : Json)
    (hv : ¬ (req.url = blankUrl ∨ req.method = ""))
    (hr : http (buildFinalUrl req.url req.method req.params) = .response st stx hs d)
    (hp : user = none ∨ ∃ i, store = .ok i) :
    (proxyPost user req http store now).1.status = 200 ∧
    ∃ rid, (proxyPost user req http store now).1.body = .success st stx hs d rid := by
  simp only [proxyPost, if_neg hv, hr]
  rcases hp with hu | ⟨i, hi⟩
  · subst hu; exact ⟨rfl, none, rfl⟩
  · subst hi
    cases user with
    | none => exact ⟨rfl, none, rfl⟩
    | some u => exact ⟨rfl, some i, rfl⟩

/-- Witness for the amended C1 at a concrete authenticated call obtaining an
    upstream 404 that the store persists successfully. -/
theorem C1_witness :
    (proxyPost (some ⟨"u1", none⟩) ⟨⟨"https://api.test/miss", []⟩, "GET", [], [], .null⟩
        (fun _ => .response 404 "Not Found" [] (.str "nope")) (.ok "h1") 7).1.status = 200 ∧
    ∃ rid, (proxyPost (some ⟨"u1", none⟩)
        ⟨⟨"https://api.test/miss", []⟩, "GET", [], [], .null⟩
        (fun _ => .response 404 "Not Found" [] (.str "nope")) (.ok "h1") 7).1.body
      = .success 404 "Not Found" [] (.str "nope") rid :=
  C1_upstream_status_passed_through (some ⟨"u1", none⟩) _ _ _ 7 404 "Not Found" []
    (.str "nope") (by decide) rfl (Or.inr ⟨"h1", rfl⟩)

/--
C2 counterexample: an authenticated `POST /proxy` call whose outbound call
already completed with a 404 response is answered, after the history write
fails, with the endpoint's own 500 carrying only the store error — the
obtained status/body is not surfaced, refuting "the response still carries
the obtained status/body with requestId null".
-/
theorem C2_counterexample :
    (proxyPost (some ⟨"u2", some "b@x.test"⟩)
        ⟨⟨"https://api.test/m", []⟩, "POST", [], [], .str "p"⟩
        (fun _ => .response 404 "Not Found" [] (.str "nope")) (.fail "quota exceeded") 9).1
      = ⟨500, .failure "quota exceeded"⟩ :=
  rfl

/--
C2 (amended): for every authenticated `POST /proxy` call whose outbound call
obtains an HTTP response but whose history write then throws, the whole call
fails with the endpoint's own 500 carrying only the store error message and
`requestId` null; the already-obtained relay outcome is discarded, and no
history document is inserted.
-/
theorem C2_persistence_failure_discards_relay_outcome
    (u : Identity) (req : ProxyRequest) (http : Url → HttpResult) (msg : String)
    (now : Nat) (st : Nat) (stx : String) (hs : List (String × String)) (d : Json)
    (hv : ¬ (req.url = blankUrl ∨ req.method = ""))
    (hr : http (buildFinalUrl req.url req.method req.params) = .response st stx hs d) :
    proxyPost (some u) req http (.fail msg) now =
      (⟨500, .failure msg⟩,
       ⟨some (buildFinalUrl req.url req.method req.params), none⟩) := by
  simp only [proxyPost, if_neg hv, hr]

/-- Witness for the amended C2 at a concrete authenticated call with a failing
    store write. -/
theorem C2_witness :
    proxyPost (some ⟨"u3", none⟩) ⟨⟨"https://api.test/w", []⟩, "GET", [], [], .null⟩
        (fun _ => .response 200 "OK" [] .null) (.fail "store down") 2 =
      (⟨500, .failure "store down"⟩,
       ⟨some (buildFinalUrl ⟨"https://api.test/w", []⟩ "GET" []), none⟩) :=
  C2_persistence_failure_discards_relay_outcome ⟨"u3", none⟩ _ _ "store down" 2
    200 "OK" [] .null (by decide) rfl

theorem mem_historyQuery_owner {store : Store} {uid : String} {r : HistoryRecord}
    (h : r ∈ historyQuery store uid) : r.userId = uid := by
  unfold historyQuery at h
  have h1 := List.take_subset 50 _ h
  have h2 := (List.mem_insertionSort (descBy HistoryRecord.createdAt)).1 h1
  exact eq_of_beq (List.mem_filter.1 h2).2

/--
C4: For every authenticated `GET /history` call, the query returns at most 50
records, every returned record is owned by the caller's uid (so two distinct
identities never receive each other's records), and records are ordered by
`createdAt` descending; an anonymous caller gets an empty array, not an
error, and the authenticated response is exactly the per-record mapping of
the query result.
-/
theorem C4_history_owner_scoped_sorted_limited
    (store : Store) (uid uid' : String) (hne : uid ≠ uid') :
    historyGet none store = [] ∧
    (historyQuery store uid).length ≤ 50 ∧
    (∀ r ∈ historyQuery store uid, r.userId = uid) ∧
    List.Pairwise (descBy HistoryRecord.createdAt) (historyQuery store uid) ∧
    (∀ r ∈ historyQuery store uid, r ∉ historyQuery store uid') ∧
    (∀ e, historyGet (some ⟨uid, e⟩) store = (historyQuery store uid).map mapHistory) := by
  refine ⟨rfl, List.length_take_le 50 _, fun r hr => mem_historyQuery_owner hr, ?_, ?_, fun _ => rfl⟩
  · exact (List.sorted_insertionSort (descBy HistoryRecord.createdAt) _).sublist
      (List.take_sublist 50 _)
  · intro r hr hr'
    exact hne ((mem_historyQuery_owner hr).symm.trans (mem_historyQuery_owner hr'))

/-- Witness for C4 at the fixture store and the distinct identities
    "alice" and "bob". -/
theorem C4_witness :
    historyGet none exStore = [] ∧
    (historyQuery exStore "alice").length ≤ 50 ∧
    (∀ r ∈ historyQuery exStore "alice", r.userId = "alice") ∧
    List.Pairwise (descBy HistoryRecord.createdAt) (historyQuery exStore "alice") ∧
    (∀ r ∈ historyQuery exStore "alice", r ∉ historyQuery exStore "bob") ∧
    (∀ e, historyGet (some ⟨"alice", e⟩) exStore
      = (historyQuery exStore "alice").map mapHistory) :=
  C4_history_owner_scoped_sorted_limited exStore "alice" "bob" (by decide)

/--
C5: For every authenticated `POST /collection-items` call with non-empty
fields, if the referenced Collection does not exist or its owner differs from
the caller's uid, the handler answers the ownership-denial outcome (sent with
status 403) and inserts nothing; and the handler's outcome never depends on
the `history` collection, so the existence of the referenced `requestId` is
not checked.
-/
theorem C5_collection_item_requires_ownership
    (u : Identity) (collectionId requestId : String) (store : Store)
    (add : StoreWriteResult) (now : Nat)
    (hc : collectionId ≠ "") (hr : requestId ≠ "")
    (hown : (store.collections.find? fun c => c.id == collectionId).all
      (fun c => c.userId != u.uid) = true) :
    collectionItemsPost (some u) collectionId requestId store add now
      = (.notOwner, none) ∧
    ItemReply.notOwner.statusCode = 403 ∧
    (∀ h₁ h₂, collectionItemsPost (some u) collectionId requestId
        { store with history := h₁ } add now
      = collectionItemsPost (some u) collectionId requestId
        { store with history := h₂ } add now) := by
  refine ⟨?_, rfl, fun _ _ => rfl⟩
  cases hfind : store.collections.find? fun c => c.id == collectionId with
  | none => simp [collectionItemsPost, hc, hr, hfind]
  | some c =>
    have hcu : c.userId ≠ u.uid := by
      rw [hfind] at hown
      simpa using hown
    simp [collectionItemsPost, hc, hr, hfind, hcu]

/-- Witness for C5 at the fixture store: "alice" targeting a collection owned
    by "mallory" is denied and nothing is inserted. -/
theorem C5_witness :
    collectionItemsPost (some ⟨"alice", none⟩) "col2" "r1" exStore (.ok "i9") 8
      = (.notOwner, none) ∧
    ItemReply.notOwner.statusCode = 403 ∧
    (∀ h₁ h₂, collectionItemsPost (some ⟨"alice", none⟩) "col2" "r1"
        { exStore with history := h₁ } (.ok "i9") 8
      = collectionItemsPost (some ⟨"alice", none⟩) "col2" "r1"
        { exStore with history := h₂ } (.ok "i9") 8) :=
  C5_collection_item_requires_ownership ⟨"alice", none⟩ "col2" "r1" exStore
    (.ok "i9") 8 (by decide) (by decide) (by decide)

/--
C9 counterexample: the success reply of `POST /collections` for an
authenticated caller has no `requests` field at all — its JSON body is
exactly `{ id, name }` — refuting the claimed response shape
`{ id, name, requests: [] }`.
-/
theorem C9_counterexample :
    ((collectionsPost (some ⟨"u1", none⟩) "Smoke Tests" (.ok "c1") 3).1.2).lookup
        "requests" = none ∧
    ((collectionsPost (some ⟨"u1", none⟩) "Smoke Tests" (.ok "c1") 3).1.2)
      ≠ .obj [("id", .str "c1"), ("name", .str "Smoke Tests"), ("requests", .arr [])] := by
  refine ⟨rfl, fun h => absurd (congrArg Json.keys h) (by decide)⟩

/--
C9 (amended): for every authenticated `POST /collections` call with a
non-empty name whose store write succeeds, the reply is 200 with body
`{ id, name }` (no `requests` field) and the Collection document is inserted
with the caller as owner; anonymous callers get 401 and an empty name gets
400, with nothing inserted in either case.
-/
theorem C9_create_collection_response_shape
    (u : Identity) (name : String) (id : String) (now : Nat) (hn : name ≠ "") :
    (∀ add now2, collectionsPost none name add now2
      = ((401, .obj [("error", .str "Authentication required")]), none)) ∧
    (∀ add now2, collectionsPost (some u) "" add now2
      = ((400, .obj [("error", .str "Name is required")]), none)) ∧
    collectionsPost (some u) name (.ok id) now
      = ((200, .obj [("id", .str id), ("name", .str name)]), some ⟨id, u.uid, name, now⟩) := by
  refine ⟨fun _ _ => rfl, fun _ _ => rfl, ?_⟩
  simp [collectionsPost, hn]

/-- Witness for the amended C9 at a concrete authenticated creation. -/
theorem C9_witness :
    (∀ add now2, collectionsPost none "Smoke Tests" add now2
      = ((401, .obj [("error", .str "Authentication required")]), none)) ∧
    (∀ add now2, collectionsPost (some ⟨"u1", none⟩) "" add now2
      = ((400, .obj [("error", .str "Name is required")]), none)) ∧
    collectionsPost (some ⟨"u1", none⟩) "Smoke Tests" (.ok "c1") 3
      = ((200, .obj [("id", .str "c1"), ("name", .str "Smoke Tests")]),
         some ⟨"c1", "u1", "Smoke Tests", 3⟩) :=
  C9_create_collection_response_shape ⟨"u1", none⟩ "Smoke Tests" "c1" 3 (by decide)

theorem collectionsGet_append_falsy (user : Option Identity) (store : Store)
    (it : CollectionItem) (hit : jsTruthy it.requestId = none) :
    collectionsGet user { store with items := store.items ++ [it] }
      = collectionsGet user store := by
  cases user with
  | none => rfl
  | some u =>
    simp only [collectionsGet]
    congr 1
    funext c
    rw [collectionItemIds_append_falsy store.items u.uid c.id it hit]

/--
C10: For every authenticated `GET /collections` call, every id in a returned
collection's items list is a non-empty string coming from a stored item whose
`requestId` is that very value — so items whose stored `requestId` is
null/undefined/empty are silently omitted, as witnessed by the fact that
adding any such falsy item to the store leaves the response unchanged.
-/
theorem C10_falsy_item_ids_omitted
    (user : Option Identity) (store : Store) (v : CollectionView)
    (hv : v ∈ collectionsGet user store)
    (it : CollectionItem) (hit : jsTruthy it.requestId = none) :
    (∀ s ∈ v.items, s ≠ "" ∧ ∃ j ∈ store.items, j.requestId = some s) ∧
    collectionsGet user { store with items := store.items ++ [it] }
      = collectionsGet user store := by
  refine ⟨?_, collectionsGet_append_falsy user store it hit⟩
  intro s hs
  cases user with
  | none => exact absurd hv (by simp [collectionsGet])
  | some u =>
    simp only [collectionsGet, List.mem_map] at hv
    obtain ⟨c, _, hfc⟩ := hv
    rw [← hfc] at hs
    simp only [collectionItemIds, List.mem_filterMap, List.mem_filter] at hs
    obtain ⟨j, ⟨hj, _⟩, hjs⟩ := hs
    obtain ⟨hjr, hne⟩ := jsTruthy_eq_some hjs
    exact ⟨hne, j, hj, hjr⟩

/-- Witness for C10 at the fixture store: the only surviving item id of
    collection `col1` is the truthy `"r1"`; appending another item with an
    empty `requestId` leaves the response unchanged. -/
theorem C10_witness :
    (∀ s ∈ (⟨"col1", "Smoke", ["r1"], 5⟩ : CollectionView).items,
      s ≠ "" ∧ ∃ j ∈ exStore.items, j.requestId = some s) ∧
    collectionsGet (some ⟨"alice", none⟩)
        { exStore with items := exStore.items ++ [⟨"i4", "alice", "col1", some "", 4⟩] }
      = collectionsGet (some ⟨"alice", none⟩) exStore :=
  C10_falsy_item_ids_omitted (some ⟨"alice", none⟩) exStore
    ⟨"col1", "Smoke", ["r1"], 5⟩ (by decide)
    ⟨"i4", "alice", "col1", some "", 4⟩ (by decide)
